import Mathlib

/-!
Verification of the SNMP PM collection system (PM request manager,
port traffic collector, buffered InfluxDB writer) against its
natural-language specification.

The Python source is shallowly embedded: Python floats are modelled as
rationals, Python unbounded integers as `Int`, dictionaries as
insertion-ordered association lists, and remote SNMP interactions as
explicit oracle parameters describing the response of the remote system.
-/

set_option maxHeartbeats 1000000

namespace PySnmp

/-! ## Traffic counters and rate computation (port_traffic_collector.py) -/

/-- `TrafficCounter` from port_traffic_collector.py: the last observed
cumulative counters of one port, plus the sample timestamp. -/
structure TrafficCounter where
  timestamp : ℚ
  bytes_in : ℤ := 0
  bytes_out : ℤ := 0
  packets_in : ℤ := 0
  packets_out : ℤ := 0
  errors_in : ℤ := 0
  errors_out : ℤ := 0
  discards_in : ℤ := 0
  discards_out : ℤ := 0
  deriving Repr, DecidableEq

/-- The six per-port rates returned by `_calculate_rates` (a Python dict
with fixed keys, modelled as a structure). -/
structure Rates where
  bytes_in_rate : ℚ
  bytes_out_rate : ℚ
  packets_in_rate : ℚ
  packets_out_rate : ℚ
  bits_in_rate : ℚ
  bits_out_rate : ℚ
  deriving Repr, DecidableEq

/-- The all-zero rate dict that `_calculate_rates` initialises and returns
unchanged when there is no previous sample or the time delta is not positive. -/
def zeroRates : Rates :=
  { bytes_in_rate := 0, bytes_out_rate := 0, packets_in_rate := 0,
    packets_out_rate := 0, bits_in_rate := 0, bits_out_rate := 0 }

/-- `PortTrafficCollector._calculate_counter_rate`: single counter rate with
32-bit wraparound handling.  In the source, `max_32bit = 2**32` and the
wraparound branch tests `current + max_32bit - previous < max_32bit / 2`
(Python float `2147483648.0`, i.e. exactly `2^31`). -/
def calculate_counter_rate (current previous : ℤ) (time_diff : ℚ) : ℚ :=
  if previous ≤ current then
    ((current : ℚ) - (previous : ℚ)) / time_diff
  else
    let max_32bit : ℤ := 2 ^ 32
    if current + max_32bit - previous < max_32bit / 2 then
      (((current + max_32bit - previous : ℤ)) : ℚ) / time_diff
    else
      0

/-- `PortTrafficCollector._calculate_rates`: looks up the previous counter for
`port_key` in `previous_counters`; with no previous sample or a non-positive
time delta all six rates stay zero, otherwise the four byte/packet rates are
computed by `calculate_counter_rate` and the bit rates are byte rates times 8. -/
def calculate_rates (previous_counters : List (String × TrafficCounter))
    (port_key : String) (current_counter : TrafficCounter) : Rates :=
  match previous_counters.lookup port_key with
  | none => zeroRates
  | some previous_counter =>
    let time_diff := current_counter.timestamp - previous_counter.timestamp
    if time_diff ≤ 0 then zeroRates
    else
      let bir := calculate_counter_rate current_counter.bytes_in previous_counter.bytes_in time_diff
      let bor := calculate_counter_rate current_counter.bytes_out previous_counter.bytes_out time_diff
      let pir := calculate_counter_rate current_counter.packets_in previous_counter.packets_in time_diff
      let por := calculate_counter_rate current_counter.packets_out previous_counter.packets_out time_diff
      { bytes_in_rate := bir, bytes_out_rate := bor,
        packets_in_rate := pir, packets_out_rate := por,
        bits_in_rate := bir * 8, bits_out_rate := bor * 8 }

/-- Claim-side formula (from the wording of the spec, for comparison with the
source translation): rate is `(current - previous) / dt` when
`current ≥ previous`, else `(current + 2^32 - previous) / dt` when that
reconstructed delta is below `2^31`, else `0`. -/
def specCounterRate (current previous : ℤ) (dt : ℚ) : ℚ :=
  if previous ≤ current then ((current : ℚ) - (previous : ℚ)) / dt
  else if current + 2 ^ 32 - previous < 2 ^ 31 then
    (((current + 2 ^ 32 - previous : ℤ)) : ℚ) / dt
  else 0

/-- Claim-side rate map (from the wording of the spec): all six rates zero
without a previous sample or with `dt ≤ 0`; otherwise the per-counter formula
for bytes/packets in/out, with bit rates equal to byte rates times 8. -/
def specRates (previous_counters : List (String × TrafficCounter))
    (port_key : String) (cur : TrafficCounter) : Rates :=
  match previous_counters.lookup port_key with
  | none => zeroRates
  | some prev =>
    let dt := cur.timestamp - prev.timestamp
    if dt ≤ 0 then zeroRates
    else
      { bytes_in_rate := specCounterRate cur.bytes_in prev.bytes_in dt,
        bytes_out_rate := specCounterRate cur.bytes_out prev.bytes_out dt,
        packets_in_rate := specCounterRate cur.packets_in prev.packets_in dt,
        packets_out_rate := specCounterRate cur.packets_out prev.packets_out dt,
        bits_in_rate := specCounterRate cur.bytes_in prev.bytes_in dt * 8,
        bits_out_rate := specCounterRate cur.bytes_out prev.bytes_out dt * 8 }

/-! ## Buffered writer (influxdb_writer.py) -/

/-- A Python value appearing in the `fields` dict of a record handed to the
writer: `None`, a bool, an int, a float (modelled as a rational), or any
other object via its string form. -/
inductive FieldValue where
  | null
  | b (v : Bool)
  | i (n : ℤ)
  | f (q : ℚ)
  | s (v : String)
  deriving Repr, DecidableEq

/-- A value actually stored on an InfluxDB point field: bool, int, float
or string. -/
inductive StoredValue where
  | b (v : Bool)
  | i (n : ℤ)
  | f (q : ℚ)
  | s (v : String)
  deriving Repr, DecidableEq

/-- A metric record as produced by the collector and consumed by the writer:
a dict with measurement, tags, fields and a nanosecond timestamp. -/
structure MetricRecord where
  measurement : String
  tags : List (String × Option String)
  fields : List (String × FieldValue)
  timestamp : Option ℤ
  deriving Repr, DecidableEq

/-- An InfluxDB `Point` after conversion. -/
structure Point where
  measurement : String
  tags : List (String × String)
  fields : List (String × StoredValue)
  time : Option ℤ
  deriving Repr, DecidableEq

/-- Python `str.endswith`, as a suffix test on the character list. -/
def strEndsWith (s suffix : String) : Bool :=
  suffix.data.isSuffixOf s.data

/-- The rate-field guard in `InfluxDBWriter._convert_to_point`:
`field_value = max(0.0, float(field_value))`, then a value above `1e12` is
replaced by `0.0`. -/
def rateAdjust (q : ℚ) : ℚ :=
  let q1 := max 0 q
  if q1 > 10 ^ 12 then 0 else q1

/-- One field conversion step of `InfluxDBWriter._convert_to_point`:
`None` values are skipped; bools pass through; ints and floats on a field
key ending in `_rate` go through `rateAdjust` (becoming floats), other
numerics pass through; everything else is stringified. -/
def convertField (field_key : String) (v : FieldValue) : Option StoredValue :=
  match v with
  | .null => none
  | .b x => some (.b x)
  | .i n =>
    if strEndsWith field_key "_rate" then some (.f (rateAdjust (n : ℚ)))
    else some (.i n)
  | .f q =>
    if strEndsWith field_key "_rate" then some (.f (rateAdjust q))
    else some (.f q)
  | .s str => some (.s str)

/-- `InfluxDBWriter._convert_to_point`: tags whose value is `None` or blank
after stripping are dropped (kept tags store the unstripped string); fields
are converted by `convertField`; the timestamp is set when present. -/
def convert_to_point (record : MetricRecord) : Point :=
  { measurement := record.measurement,
    tags := record.tags.filterMap (fun kv =>
      match kv.2 with
      | none => none
      | some str => if str.trim.isEmpty then none else some (kv.1, str)),
    fields := record.fields.filterMap (fun kv =>
      (convertField kv.1 kv.2).map (fun sv => (kv.1, sv))),
    time := record.timestamp }

/-- Claim-side field conversion, following the amended wording: a numeric
rate field is first raised to at least `0` and then replaced by `0` when it
exceeds `1e12` (not clamped to `1e12`), stored as a float; booleans and
non-rate numerics pass through unchanged; `None` fields are dropped; all
other values are stringified. -/
def specConvertField (field_key : String) (v : FieldValue) : Option StoredValue :=
  match v with
  | .null => none
  | .b x => some (.b x)
  | .i n =>
    if strEndsWith field_key "_rate" then
      some (.f (if 10 ^ 12 < max 0 (n : ℚ) then 0 else max 0 (n : ℚ)))
    else some (.i n)
  | .f q =>
    if strEndsWith field_key "_rate" then
      some (.f (if 10 ^ 12 < max 0 q then 0 else max 0 q))
    else some (.f q)
  | .s str => some (.s str)

/-- `InfluxDBWriter.add_records`: appends the records to the buffer; when the
buffer reaches the batch size, a copy of the whole buffer is handed to the
worker pool for asynchronous flush and the buffer is cleared.  Returns the
new buffer and the list of flush batches submitted (empty or a singleton). -/
def add_records (batch_size : ℕ) (records : List MetricRecord)
    (buffer : List MetricRecord) : List MetricRecord × List (List MetricRecord) :=
  if records.isEmpty then (buffer, [])
  else
    let buffer1 := buffer ++ records
    if batch_size ≤ buffer1.length then ([], [buffer1]) else (buffer1, [])

/-- One iteration of `InfluxDBWriter._background_writer` after the interval
wait: a non-empty buffer is copied, cleared and flushed; an empty buffer
causes no flush.  Returns the new buffer and the flush batches written. -/
def background_writer_tick (buffer : List MetricRecord) :
    List MetricRecord × List (List MetricRecord) :=
  if buffer.isEmpty then (buffer, []) else ([], [buffer])

/-- A concrete record used to instantiate witnesses. -/
def demoRecord : MetricRecord :=
  { measurement := "port_traffic", tags := [], fields := [], timestamp := none }

/-! ## PM request manager (pm_request_manager.py) -/

/-- `PMRequestState` enum; remote wire values are 1..7 in declaration order. -/
inductive PMRequestState where
  | CREATED | PENDING | STARTED | FINISHED | FAILED | CANCELLING | CANCELLED
  deriving Repr, DecidableEq

/-- `PMRequestType` enum (wire values 1..3). -/
inductive PMRequestType where
  | PM_HISTORY | PM_CURRENT | PM_POINTS
  deriving Repr, DecidableEq

/-- `FilterType` enum (wire values 1..7). -/
inductive FilterType where
  | TP_OBJECT | PORT_OBJECT | NE_OBJECT | SNC_OBJECT
  | ETHERNET_PATH_OBJECT | MODULE_OBJECT | EQUIP_HOLDER_OBJECT
  deriving Repr, DecidableEq

/-- One locally tracked entry of `PMRequestManager.active_requests`. -/
structure PMRequestEntry where
  name : String
  filter_value : String
  request_type : PMRequestType
  filter_type : FilterType
  created_time : ℚ
  state : PMRequestState
  last_error : Option String := none
  deriving Repr, DecidableEq

/-- Observable outcome of one remote SNMP SET/GET round trip: success, or an
error (errorIndication, errorStatus, or a raised transport exception — all
three take the same failure branch in the embedded methods). -/
inductive SnmpOutcome where
  | ok | err
  deriving Repr, DecidableEq

/-- Python dict assignment `m[k] = v` on an insertion-ordered dict: an
existing key keeps its position and gets the new value, a new key is
appended at the end. -/
def dictSet {κ α : Type} [BEq κ] (m : List (κ × α)) (k : κ) (v : α) :
    List (κ × α) :=
  if m.any (fun p => p.1 == k) then
    m.map (fun p => bif p.1 == k then (k, v) else p)
  else m ++ [(k, v)]

/-- `PMRequestManager.create_pm_request`: a failed next-request-id GET
(`next_id = none`) or a failed create-and-activate SET returns no id and
leaves `active_requests` untouched; only a successful SET records the entry
(state `CREATED`) and returns the id. -/
def create_pm_request (next_id : Option ℕ) (set_result : SnmpOutcome)
    (request_name filter_value : String) (request_type : PMRequestType)
    (filter_type : FilterType) (now : ℚ)
    (active_requests : List (ℕ × PMRequestEntry)) :
    Option ℕ × List (ℕ × PMRequestEntry) :=
  match next_id with
  | none => (none, active_requests)
  | some request_id =>
    match set_result with
    | .err => (none, active_requests)
    | .ok =>
      (some request_id,
       dictSet active_requests request_id
         { name := request_name, filter_value := filter_value,
           request_type := request_type, filter_type := filter_type,
           created_time := now, state := .CREATED, last_error := none })

/-- `PMRequestManager.delete_pm_request`: SETs row status 6 (destroy); on any
error it returns `false` without touching `active_requests`; on success it
removes the entry (when present) and returns `true`. -/
def delete_pm_request (set_result : SnmpOutcome)
    (active_requests : List (ℕ × PMRequestEntry)) (request_id : ℕ) :
    Bool × List (ℕ × PMRequestEntry) :=
  match set_result with
  | .err => (false, active_requests)
  | .ok => (true, active_requests.filter (fun p => p.1 != request_id))

/-- The cleanup condition of `PMRequestManager.cleanup_old_requests`, with
the if/elif precedence of the source: FINISHED older than `max_age`;
FAILED/CANCELLED older than `max_failed_age`; PENDING/STARTED older than
`max_age * 2`. -/
def should_cleanup (now max_age max_failed_age : ℚ) (info : PMRequestEntry) :
    Bool :=
  if info.state = PMRequestState.FINISHED ∧ now - info.created_time > max_age then
    true
  else if (info.state = PMRequestState.FAILED ∨ info.state = PMRequestState.CANCELLED)
      ∧ now - info.created_time > max_failed_age then
    true
  else if (info.state = PMRequestState.PENDING ∨ info.state = PMRequestState.STARTED)
      ∧ now - info.created_time > max_age * 2 then
    true
  else
    false

/-- The scan loop of `cleanup_old_requests`: walks the tracked entries in
order, collecting requestIds to delete and counting the `old_requests` and
`failed_requests` stats per branch. -/
def cleanup_scan (now max_age max_failed_age : ℚ) :
    List (ℕ × PMRequestEntry) → List ℕ × ℕ × ℕ
  | [] => ([], 0, 0)
  | p :: rest =>
    let r := cleanup_scan now max_age max_failed_age rest
    if p.2.state = PMRequestState.FINISHED ∧ now - p.2.created_time > max_age then
      (p.1 :: r.1, r.2.1 + 1, r.2.2)
    else if (p.2.state = PMRequestState.FAILED ∨ p.2.state = PMRequestState.CANCELLED)
        ∧ now - p.2.created_time > max_failed_age then
      (p.1 :: r.1, r.2.1, r.2.2 + 1)
    else if (p.2.state = PMRequestState.PENDING ∨ p.2.state = PMRequestState.STARTED)
        ∧ now - p.2.created_time > max_age * 2 then
      (p.1 :: r.1, r.2.1 + 1, r.2.2)
    else
      r

/-- The delete loop of `cleanup_old_requests`: deletes each collected id via
`delete_pm_request`, counting successes and errors.  Returns the new map and
the `total_cleaned` / `cleanup_errors` stats. -/
def cleanup_delete (set_result : ℕ → SnmpOutcome) :
    List ℕ → List (ℕ × PMRequestEntry) → List (ℕ × PMRequestEntry) × ℕ × ℕ
  | [], m => (m, 0, 0)
  | rid :: rest, m =>
    let d := delete_pm_request (set_result rid) m rid
    let r := cleanup_delete set_result rest d.2
    if d.1 then (r.1, r.2.1 + 1, r.2.2) else (r.1, r.2.1, r.2.2 + 1)

/-- Stats dict returned by `cleanup_old_requests`. -/
structure CleanupStats where
  old_requests : ℕ
  failed_requests : ℕ
  total_cleaned : ℕ
  cleanup_errors : ℕ
  deriving Repr, DecidableEq

/-- `PMRequestManager.cleanup_old_requests`: scan phase then delete phase,
returning the new tracking map and the stats. -/
def cleanup_old_requests (set_result : ℕ → SnmpOutcome)
    (now max_age max_failed_age : ℚ)
    (active_requests : List (ℕ × PMRequestEntry)) :
    List (ℕ × PMRequestEntry) × CleanupStats :=
  let scan := cleanup_scan now max_age max_failed_age active_requests
  let del := cleanup_delete set_result scan.1 active_requests
  (del.1,
   { old_requests := scan.2.1, failed_requests := scan.2.2,
     total_cleaned := del.2.1, cleanup_errors := del.2.2 })

/-- A concrete tracking entry used in counterexamples and witnesses. -/
def demoEntry : PMRequestEntry :=
  { name := "r", filter_value := "35|12", request_type := .PM_CURRENT,
    filter_type := .PORT_OBJECT, created_time := 0, state := .CREATED,
    last_error := none }

/-! ## Result-table walks (`_get_pmp_results` / `_get_value_results`)

A walked row is the OID suffix below the table OID (a list of numeric
components, as produced by the prefix strip and dot split in the source)
together with the row value, already stringified.  The bulk walk delivers
rows in pages; a transport error ends the page stream, so the embedding
takes the list of successfully delivered pages. -/

/-- The PMP-table column-to-field-name mapping (`PMP_FIELD_*` constants and
the if/elif chain of `_get_pmp_results`); unknown columns are kept under a
`field_<id>` debug key. -/
def pmpFieldName (field_id : ℕ) : String :=
  if field_id = 3 then "ne_id"
  else if field_id = 4 then "port_id"
  else if field_id = 5 then "tp_id_high"
  else if field_id = 6 then "tp_id_low"
  else if field_id = 7 then "ne_name"
  else if field_id = 8 then "obj_location"
  else if field_id = 9 then "pmp_name"
  else if field_id = 10 then "location"
  else if field_id = 11 then "direction"
  else if field_id = 12 then "retrieval_time"
  else if field_id = 13 then "period_end_time"
  else if field_id = 14 then "monitored_time"
  else if field_id = 15 then "num_values"
  else if field_id = 16 then "related_paths"
  else if field_id = 17 then "related_services"
  else if field_id = 18 then "related_subscribers"
  else if field_id = 19 then "native_location"
  else if field_id = 20 then "module_id"
  else if field_id = 21 then "equip_holder_id"
  else "field_" ++ toString field_id

/-- A partially assembled row of the point table, keyed by
`(request_id, pmp_number)`, with the flat attribute dict. -/
structure PmpRecord where
  request_id : ℕ
  pmp_number : ℕ
  fields : List (String × String)
  deriving Repr, DecidableEq

/-- Store one column value on a PMP record (`pmp_record[name] = str(value)`). -/
def setPmpField (r : PmpRecord) (field_id : ℕ) (value : String) : PmpRecord :=
  { r with fields := dictSet r.fields (pmpFieldName field_id) value }

/-- The find-or-create step of `_get_pmp_results`: the first record with the
given `pmp_number` is updated in place; otherwise a fresh record is appended
and then updated. -/
def updatePmpResults (req_id pmp_number field_id : ℕ) (value : String) :
    List PmpRecord → List PmpRecord
  | [] => [setPmpField { request_id := req_id, pmp_number := pmp_number, fields := [] } field_id value]
  | r :: rest =>
    if r.pmp_number = pmp_number then setPmpField r field_id value :: rest
    else r :: updatePmpResults req_id pmp_number field_id value rest

/-- One row of the point-table walk: rows with fewer than 3 index parts are
skipped; rows whose second part (request id) differs from the requested id
are skipped; matching rows update the record for their `pmp_number`. -/
def process_pmp_row (request_id : ℕ) (results : List PmpRecord)
    (row : List ℕ × String) : List PmpRecord :=
  match row.1 with
  | field_id :: req_id :: pmp_number :: _ =>
    if req_id = request_id then
      updatePmpResults req_id pmp_number field_id row.2 results
    else results
  | _ => results

/-- The paged walk loop of `_get_pmp_results`: rows of each page are
processed in order; after a page, the walk stops once the number of
assembled records exceeds `max_rows`. -/
def get_pmp_results_go (request_id max_rows : ℕ) :
    List (List (List ℕ × String)) → List PmpRecord → List PmpRecord
  | [], results => results
  | page :: rest, results =>
    let results1 := page.foldl (process_pmp_row request_id) results
    if results1.length > max_rows then results1
    else get_pmp_results_go request_id max_rows rest results1

/-- `PMRequestManager._get_pmp_results` over the delivered walk pages
(`max_rows` defaults to 1000 in the source). -/
def get_pmp_results (request_id : ℕ) (pages : List (List (List ℕ × String)))
    (max_rows : ℕ) : List PmpRecord :=
  get_pmp_results_go request_id max_rows pages []

/-- The value-table column-to-field-name mapping (`VALUE_FIELD_*`). -/
def valueFieldName (field_id : ℕ) : String :=
  if field_id = 4 then "param_name"
  else if field_id = 5 then "param_value"
  else if field_id = 6 then "unit"
  else if field_id = 7 then "status"
  else "field_" ++ toString field_id

/-- A row of the value table, keyed by
`(request_id, pmp_number, value_number)`. -/
structure ValueRecord where
  request_id : ℕ
  pmp_number : ℕ
  value_number : ℕ
  fields : List (String × String)
  deriving Repr, DecidableEq

/-- Store one column value on a value record. -/
def setValueField (r : ValueRecord) (field_id : ℕ) (value : String) : ValueRecord :=
  { r with fields := dictSet r.fields (valueFieldName field_id) value }

/-- The find-or-create step of `_get_value_results`, keyed by
`(pmp_number, value_number)`. -/
def updateValueResults (req_id pmp_number value_number field_id : ℕ)
    (value : String) : List ValueRecord → List ValueRecord
  | [] => [setValueField
      { request_id := req_id, pmp_number := pmp_number,
        value_number := value_number, fields := [] } field_id value]
  | r :: rest =>
    if r.pmp_number = pmp_number ∧ r.value_number = value_number then
      setValueField r field_id value :: rest
    else r :: updateValueResults req_id pmp_number value_number field_id value rest

/-- One row of the value-table walk: rows need at least 4 index parts and a
matching request id (second part). -/
def process_value_row (request_id : ℕ) (results : List ValueRecord)
    (row : List ℕ × String) : List ValueRecord :=
  match row.1 with
  | field_id :: req_id :: pmp_number :: value_number :: _ =>
    if req_id = request_id then
      updateValueResults req_id pmp_number value_number field_id row.2 results
    else results
  | _ => results

/-- The paged walk loop of `_get_value_results`. -/
def get_value_results_go (request_id max_rows : ℕ) :
    List (List (List ℕ × String)) → List ValueRecord → List ValueRecord
  | [], results => results
  | page :: rest, results =>
    let results1 := page.foldl (process_value_row request_id) results
    if results1.length > max_rows then results1
    else get_value_results_go request_id max_rows rest results1

/-- `PMRequestManager._get_value_results` over the delivered walk pages
(`max_rows` defaults to 5000 in the source). -/
def get_value_results (request_id : ℕ) (pages : List (List (List ℕ × String)))
    (max_rows : ℕ) : List ValueRecord :=
  get_value_results_go request_id max_rows pages []

/-! ## Port discovery (PortTrafficCollector.discover_ports)

Walked port-table rows are given as the OID suffix below `OID_PORT_TABLE`
(numeric components: field id, NE id, port id, ...) with the row value.
The Python `re` engine is external; it enters the model as a validity flag
for the configured pattern plus the compiled case-insensitive matcher. -/

/-- A value delivered by the SNMP walk: a string or an integer. -/
inductive SnmpValue where
  | str (s : String)
  | int (n : ℤ)
  deriving Repr, DecidableEq

/-- Python `str(value)` on a walked value. -/
def SnmpValue.toStr : SnmpValue → String
  | .str s => s
  | .int n => toString n

/-- Python truthiness of a walked value (empty string and 0 are falsy). -/
def SnmpValue.truthy : SnmpValue → Bool
  | .str s => !s.isEmpty
  | .int n => n != 0

/-- Python `int(s)` on a string: optional sign followed by digits
(other int formats of the runtime are outside the model). -/
def parseIntString (s : String) : Option ℤ :=
  match s.data with
  | [] => none
  | c :: rest =>
    if c = Char.ofNat 45 then
      (String.mk rest).toNat?.map (fun n => -(n : ℤ))
    else if c = Char.ofNat 43 then
      (String.mk rest).toNat?.map (fun n => (n : ℤ))
    else s.toNat?.map (fun n => (n : ℤ))

/-- `int(value) if value else 0` on a walked value; `none` models the
`ValueError` raised on a non-numeric string, which aborts the parse loop. -/
def intOrZero (v : SnmpValue) : Option ℤ :=
  if v.truthy then
    match v with
    | .int n => some n
    | .str s => parseIntString s
  else some 0

/-- One entry of the discovered `port_data` dict (optional attributes are
keys the loop may not have assigned). -/
structure PortEntry where
  ne_id : String
  port_id : String
  port_key : String
  port_name : Option String := none
  port_type : Option String := none
  bandwidth : Option ℤ := none
  op_state_tx : Option ℤ := none
  op_state_rx : Option ℤ := none
  deriving Repr, DecidableEq

/-- In-place update of the entry at key `k` (which the caller has ensured
exists). -/
def dictUpdate {κ α : Type} [BEq κ] (m : List (κ × α)) (k : κ) (f : α → α) :
    List (κ × α) :=
  m.map (fun p => bif p.1 == k then (p.1, f p.2) else p)

/-- One iteration of the port-table parse loop in `discover_ports`: rows with
fewer than 3 OID parts are skipped; otherwise the `(ne_id, port_id)` entry is
created on first sight and the field given by the leading component is
assigned (`2` name, `3` type, `7` bandwidth, `15`/`16` operational states;
numeric fields go through `int(value) if value else 0`, whose failure raises
and aborts discovery). -/
def parsePortRow (pd : List (String × PortEntry)) (row : List ℕ × SnmpValue) :
    Except Unit (List (String × PortEntry)) :=
  match row.1 with
  | field_id :: ne_id :: port_id :: _ =>
    let ne_s := toString ne_id
    let port_s := toString port_id
    let port_key := ne_s ++ "|" ++ port_s
    let pd1 :=
      if pd.any (fun p => p.1 == port_key) then pd
      else pd ++ [(port_key, { ne_id := ne_s, port_id := port_s, port_key := port_key })]
    if field_id = 2 then
      .ok (dictUpdate pd1 port_key (fun e => { e with port_name := some row.2.toStr }))
    else if field_id = 3 then
      .ok (dictUpdate pd1 port_key (fun e => { e with port_type := some row.2.toStr }))
    else if field_id = 7 then
      match intOrZero row.2 with
      | none => .error ()
      | some n => .ok (dictUpdate pd1 port_key (fun e => { e with bandwidth := some n }))
    else if field_id = 15 then
      match intOrZero row.2 with
      | none => .error ()
      | some n => .ok (dictUpdate pd1 port_key (fun e => { e with op_state_tx := some n }))
    else if field_id = 16 then
      match intOrZero row.2 with
      | none => .error ()
      | some n => .ok (dictUpdate pd1 port_key (fun e => { e with op_state_rx := some n }))
    else .ok pd1
  | _ => .ok pd

/-- The whole parse loop of `discover_ports`. -/
def parse_port_rows :
    List (List ℕ × SnmpValue) → List (String × PortEntry) →
      Except Unit (List (String × PortEntry))
  | [], pd => .ok pd
  | row :: rest, pd =>
    match parsePortRow pd row with
    | .error e => .error e
    | .ok pd1 => parse_port_rows rest pd1

/-- `PortTrafficCollector._filter_ports`: no filter (or an empty one) keeps
everything; an invalid regex degrades to no filtering; otherwise ports whose
name matches the compiled case-insensitive pattern are kept. -/
def filter_ports (ports : List (String × PortEntry)) (name_filter : Option String)
    (regex_valid : Bool) (matcher : String → Bool) : List (String × PortEntry) :=
  match name_filter with
  | none => ports
  | some nf =>
    if nf.isEmpty then ports
    else if !regex_valid then ports
    else ports.filter (fun p => matcher (p.2.port_name.getD ""))

/-- The mutable collector attributes touched by discovery and collection. -/
structure CollectorState where
  previous_counters : List (String × TrafficCounter)
  port_cache : List (String × PortEntry)
  port_cache_time : ℚ
  deriving Repr, DecidableEq

/-- `self.port_cache_ttl = 300` (seconds). -/
def port_cache_ttl : ℚ := 300

/-- `PortTrafficCollector.discover_ports`: a fresh-enough non-empty cache is
filtered and returned without walking; otherwise the port table is walked
(third component `true`), an empty walk returns `\x7b\x7d` without touching the
cache, a parse error returns the filter of the empty dict without touching
the cache, and a successful parse keeps the entries that saw a name field,
caches them with the current time, and returns them filtered. -/
def discover_ports (walk_rows : List (List ℕ × SnmpValue)) (now : ℚ)
    (name_filter : Option String) (regex_valid : Bool) (matcher : String → Bool)
    (σ : CollectorState) :
    List (String × PortEntry) × CollectorState × Bool :=
  if now - σ.port_cache_time < port_cache_ttl ∧ σ.port_cache ≠ [] then
    (filter_ports σ.port_cache name_filter regex_valid matcher, σ, false)
  else if walk_rows = [] then
    ([], σ, true)
  else
    match parse_port_rows walk_rows [] with
    | .error _ => (filter_ports [] name_filter regex_valid matcher, σ, true)
    | .ok pd =>
      let ports := pd.filter (fun p => p.2.port_name.isSome)
      (filter_ports ports name_filter regex_valid matcher,
       { σ with port_cache := ports, port_cache_time := now }, true)

/-! ## Counter parsing, correlation and batched collection
(`_parse_counter_values`, `_process_pm_results`, `collect_port_traffic`) -/

/-- Python `sub in s` substring containment (for non-empty `sub`). -/
def containsSub (s sub : String) : Bool :=
  (s.splitOn sub).length ≥ 2

/-- `any(x in s for x in subs)`. -/
def anySub (s : String) (subs : List String) : Bool :=
  subs.any (fun x => containsSub s x)

/-- Truncation of the digits of a digit list to a natural number. -/
def digitsVal (cs : List Char) : ℕ :=
  cs.foldl (fun a c => a * 10 + (c.toNat - 48)) 0

/-- Magnitude of `int(float(s))` for an unsigned plain decimal
`digits[.digits]` (scientific and special float forms of the runtime are
outside the model and count as unparseable). -/
def parseFloatLike (cs : List Char) : Option ℕ :=
  match cs.splitOn (Char.ofNat 46) with
  | [ip] => if ip ≠ [] ∧ ip.all Char.isDigit then some (digitsVal ip) else none
  | [ip, fp] =>
    if (ip ≠ [] ∨ fp ≠ []) ∧ ip.all Char.isDigit ∧ fp.all Char.isDigit then
      some (digitsVal ip)
    else none
  | _ => none

/-- The numeric-parse step of `_parse_counter_values` on a string value:
`int(val)` when `val.isdigit()`, else `int(float(val))` (truncation toward
zero), else unparseable (`none`, the value is skipped). -/
def parse_numeric (val : String) : Option ℤ :=
  match val.toNat? with
  | some n => some (n : ℤ)
  | none =>
    match val.data with
    | c :: rest =>
      if c = Char.ofNat 45 then (parseFloatLike rest).map (fun n => -(n : ℤ))
      else if c = Char.ofNat 43 then (parseFloatLike rest).map (fun n => (n : ℤ))
      else (parseFloatLike val.data).map (fun n => (n : ℤ))
    | [] => none

/-- The inbound-direction keyword list of `_parse_counter_values`. -/
def inKeywords : List String := ["in", "rx", "receive", "ingress", "input"]

/-- The outbound-direction keyword list. -/
def outKeywords : List String := ["out", "tx", "transmit", "egress", "output"]

/-- `PortTrafficCollector._parse_counter_values`: classify each value row by
case-insensitive substring matching on the parameter name into a counter
family (bytes, packets, errors, discards) and direction, writing the parsed
number into the matching field; unknown parameters and unparseable values
are skipped. -/
def parse_counter_values (values : List ValueRecord) : TrafficCounter :=
  values.foldl (fun counter value =>
    let param := (value.fields.lookup "param_name").getD ""
    let val := (value.fields.lookup "param_value").getD "0"
    match parse_numeric val with
    | none => counter
    | some numeric_value =>
      let param_lower := param.toLower
      if anySub param_lower ["bytes", "octets", "byte"] then
        if anySub param_lower inKeywords then
          { counter with bytes_in := numeric_value }
        else if anySub param_lower outKeywords then
          { counter with bytes_out := numeric_value }
        else counter
      else if anySub param_lower ["packets", "frames", "pkts", "pkt", "frame"] then
        if anySub param_lower inKeywords then
          { counter with packets_in := numeric_value }
        else if anySub param_lower outKeywords then
          { counter with packets_out := numeric_value }
        else counter
      else if containsSub param_lower "error" then
        if anySub param_lower inKeywords then
          { counter with errors_in := numeric_value }
        else if anySub param_lower outKeywords then
          { counter with errors_out := numeric_value }
        else counter
      else if anySub param_lower ["discard", "drop", "dropped"] then
        if anySub param_lower inKeywords then
          { counter with discards_in := numeric_value }
        else if anySub param_lower outKeywords then
          { counter with discards_out := numeric_value }
        else counter
      else counter)
    { timestamp := 0 }

/-- Python `int(q)` on a float: truncation toward zero. -/
def pyInt (q : ℚ) : ℤ :=
  if 0 ≤ q then q.floor else q.ceil

/-- One entry of the `pmp_to_port` correlation dict built by
`_process_pm_results` (port identity plus the PMP diagnostic info). -/
structure PmpPortMapping where
  port_key : String
  port_info : PortEntry
  pmp_name : String
  obj_location : String
  direction : String
  ne_name : String
  location : String
  native_location : String
  deriving Repr, DecidableEq

/-- Build `pmp_to_port`: PMP records with a truthy `ne_id` and `port_id`
whose `"ne_id|port_id"` key is in the batch port map are kept; others are
dropped (logged only). -/
def build_pmp_to_port (pmp_results : List PmpRecord)
    (ports : List (String × PortEntry)) : List (ℕ × PmpPortMapping) :=
  pmp_results.foldl (fun acc pmp =>
    match pmp.fields.lookup "ne_id", pmp.fields.lookup "port_id" with
    | some ne, some pid =>
      if ne.isEmpty || pid.isEmpty then acc
      else
        let port_key := ne ++ "|" ++ pid
        match ports.lookup port_key with
        | some port_info =>
          dictSet acc pmp.pmp_number
            { port_key := port_key, port_info := port_info,
              pmp_name := (pmp.fields.lookup "pmp_name").getD "",
              obj_location := (pmp.fields.lookup "obj_location").getD "",
              direction := (pmp.fields.lookup "direction").getD "",
              ne_name := (pmp.fields.lookup "ne_name").getD "",
              location := (pmp.fields.lookup "location").getD "",
              native_location := (pmp.fields.lookup "native_location").getD "" }
        | none => acc
    | _, _ => acc) []

/-- Group value records by `pmp_number`, preserving arrival order. -/
def group_pmp_values (value_results : List ValueRecord) :
    List (ℕ × List ValueRecord) :=
  value_results.foldl (fun acc v =>
    match acc.lookup v.pmp_number with
    | none => acc ++ [(v.pmp_number, [v])]
    | some vs => dictSet acc v.pmp_number (vs ++ [v])) []

/-- The metric record emitted for one correlated PMP. -/
def mkTrafficRecord (mapping : PmpPortMapping) (c : TrafficCounter)
    (rates : Rates) (ts_ns : ℤ) : MetricRecord :=
  { measurement := "port_traffic",
    tags := [("ne_id", some mapping.port_info.ne_id),
             ("port_id", some mapping.port_info.port_id),
             ("port_name", some (mapping.port_info.port_name.getD "")),
             ("port_type", some (mapping.port_info.port_type.getD "")),
             ("pmp_name", some mapping.pmp_name),
             ("pmp_direction", some mapping.direction),
             ("pmp_location", some mapping.location),
             ("ne_name", some mapping.ne_name)],
    fields :=
      [("bytes_in_total", .i c.bytes_in), ("bytes_out_total", .i c.bytes_out),
       ("packets_in_total", .i c.packets_in), ("packets_out_total", .i c.packets_out),
       ("errors_in_total", .i c.errors_in), ("errors_out_total", .i c.errors_out),
       ("discards_in_total", .i c.discards_in), ("discards_out_total", .i c.discards_out),
       ("bytes_in_rate", .f rates.bytes_in_rate), ("bytes_out_rate", .f rates.bytes_out_rate),
       ("packets_in_rate", .f rates.packets_in_rate), ("packets_out_rate", .f rates.packets_out_rate),
       ("bits_in_rate", .f rates.bits_in_rate), ("bits_out_rate", .f rates.bits_out_rate)]
      ++ (match mapping.port_info.bandwidth with
          | some bw => [("bandwidth", FieldValue.i bw)]
          | none => []),
    timestamp := some ts_ns }

/-- The per-PMP loop of `_process_pm_results`: for each correlated PMP that
has at least one value row, parse the counters, stamp the sample time,
compute rates against the previous-counter dict, emit a record and overwrite
the previous counter for that port key. -/
def process_loop (now : ℚ) (ts_ns : ℤ) (pmp_values : List (ℕ × List ValueRecord)) :
    List (ℕ × PmpPortMapping) → List (String × TrafficCounter) →
      List MetricRecord × List (String × TrafficCounter)
  | [], prev => ([], prev)
  | (pmp_number, mapping) :: rest, prev =>
    match pmp_values.lookup pmp_number with
    | none => process_loop now ts_ns pmp_values rest prev
    | some vals =>
      let current_counter := { parse_counter_values vals with timestamp := now }
      let rates := calculate_rates prev mapping.port_key current_counter
      let record := mkTrafficRecord mapping current_counter rates ts_ns
      let prev1 := dictSet prev mapping.port_key current_counter
      let r := process_loop now ts_ns pmp_values rest prev1
      (record :: r.1, r.2)

/-- `PortTrafficCollector._process_pm_results` (the collection timestamp is
taken once per call; its nanosecond form is `int(current_time * 1e9)`). -/
def process_pm_results (pmp_results : List PmpRecord)
    (value_results : List ValueRecord) (ports : List (String × PortEntry))
    (previous_counters : List (String × TrafficCounter)) (current_time : ℚ) :
    List MetricRecord × List (String × TrafficCounter) :=
  process_loop current_time (pyInt (current_time * 1000000000))
    (group_pmp_values value_results)
    (build_pmp_to_port pmp_results ports)
    previous_counters

/-- The remote interaction of one batch of `collect_port_traffic`, observed
through the PM request manager: the create step fails, the execute step
fails, fetching/processing the results raises, or the two result tables are
delivered. -/
inductive BatchOutcome where
  | createFail
  | execFail
  | fetchFail
  | results (pmps : List PmpRecord) (values : List ValueRecord)
  deriving Repr, DecidableEq

/-- Side effects of `collect_port_traffic` on the remote system, tagged with
the batch number. -/
inductive CollectEvent where
  | walk_ports
  | create_request (batch_num : ℕ)
  | execute_request (batch_num : ℕ)
  | delete_request (batch_num : ℕ)
  deriving Repr, DecidableEq

/-- The `port_items[i:i+batch_size]` slicing of `collect_port_traffic`
(meaningful for a positive batch size; the source would raise on 0). -/
def chunkList {α : Type} (bs : ℕ) (l : List α) : List (List α) :=
  if _hbs : bs = 0 then []
  else
    match l with
    | [] => []
    | x :: xs => (x :: xs).take bs :: chunkList bs ((x :: xs).drop bs)
termination_by l.length
decreasing_by
  simp only [List.length_drop, List.length_cons]
  omega

/-- The per-batch loop of `collect_port_traffic`: a failed create, execute
or fetch/process step increments the failed counter and moves on (execute
and fetch failures still delete the request best-effort); delivered results
are correlated and their records appended; an empty result pair only logs a
warning.  Returns `(records, failed_batches, previous_counters, events)`. -/
def run_batches (oracle : ℕ → BatchOutcome) (now : ℚ) :
    List (List (String × PortEntry)) → ℕ → List (String × TrafficCounter) →
      List MetricRecord × ℕ × List (String × TrafficCounter) × List CollectEvent
  | [], _, prev => ([], 0, prev, [])
  | batch :: rest, batch_num, prev =>
    match oracle batch_num with
    | .createFail =>
      let r := run_batches oracle now rest (batch_num + 1) prev
      (r.1, r.2.1 + 1, r.2.2.1, .create_request batch_num :: r.2.2.2)
    | .execFail =>
      let r := run_batches oracle now rest (batch_num + 1) prev
      (r.1, r.2.1 + 1, r.2.2.1,
       .create_request batch_num :: .execute_request batch_num ::
         .delete_request batch_num :: r.2.2.2)
    | .fetchFail =>
      let r := run_batches oracle now rest (batch_num + 1) prev
      (r.1, r.2.1 + 1, r.2.2.1,
       .create_request batch_num :: .execute_request batch_num ::
         .delete_request batch_num :: r.2.2.2)
    | .results pmps vals =>
      if pmps = [] ∧ vals = [] then
        let r := run_batches oracle now rest (batch_num + 1) prev
        (r.1, r.2.1, r.2.2.1,
         .create_request batch_num :: .execute_request batch_num ::
           .delete_request batch_num :: r.2.2.2)
      else
        let pr := process_pm_results pmps vals batch prev now
        let r := run_batches oracle now rest (batch_num + 1) pr.2
        (pr.1 ++ r.1, r.2.1, r.2.2.1,
         .create_request batch_num :: .execute_request batch_num ::
           .delete_request batch_num :: r.2.2.2)

/-- `PortTrafficCollector.collect_port_traffic`: disabled collection returns
immediately; otherwise ports are taken from the argument or discovered with
the configured filter; an empty port set returns no records; otherwise the
ports are chunked and each batch is driven through the request lifecycle.
Returns the records, the new collector state and the emitted events. -/
def collect_port_traffic (pm_enabled : Bool) (batch_size : ℕ)
    (oracle : ℕ → BatchOutcome) (walk_rows : List (List ℕ × SnmpValue))
    (name_filter : Option String) (regex_valid : Bool) (matcher : String → Bool)
    (now : ℚ) (ports_arg : Option (List (String × PortEntry)))
    (σ : CollectorState) :
    List MetricRecord × CollectorState × List CollectEvent :=
  if !pm_enabled then ([], σ, [])
  else
    let disc :=
      match ports_arg with
      | some p => (p, σ, ([] : List CollectEvent))
      | none =>
        let d := discover_ports walk_rows now name_filter regex_valid matcher σ
        (d.1, d.2.1, if d.2.2 then [CollectEvent.walk_ports] else [])
    if disc.1 = [] then ([], disc.2.1, disc.2.2)
    else
      let batches := chunkList batch_size disc.1
      let r := run_batches oracle now batches 1 disc.2.1.previous_counters
      (r.1, { disc.2.1 with previous_counters := r.2.2.1 }, disc.2.2 ++ r.2.2.2)

/-- Claim-side batch fold (from the wording of the spec): the concatenation
of the records produced by the successfully processed batches, threading the
previous-counter state exactly through those batches. -/
def successive_batch_records (oracle : ℕ → BatchOutcome) (now : ℚ) :
    List (List (String × PortEntry)) → ℕ → List (String × TrafficCounter) →
      List MetricRecord
  | [], _, _ => []
  | batch :: rest, n, prev =>
    match oracle n with
    | .results pmps vals =>
      if pmps = [] ∧ vals = [] then
        successive_batch_records oracle now rest (n + 1) prev
      else
        let pr := process_pm_results pmps vals batch prev now
        pr.1 ++ successive_batch_records oracle now rest (n + 1) pr.2
    | _ => successive_batch_records oracle now rest (n + 1) prev

/-- Is a batch outcome a failure (create, execute or fetch/process)? -/
def batchFailed : BatchOutcome → Bool
  | .results _ _ => false
  | _ => true

/-- Claim-side failed-batch count. -/
def count_failed (oracle : ℕ → BatchOutcome) :
    List (List (String × PortEntry)) → ℕ → ℕ
  | [], _ => 0
  | _ :: rest, n =>
    (if batchFailed (oracle n) then 1 else 0) + count_failed oracle rest (n + 1)

/-- A matcher accepting every name (stands for a compiled pattern in
concrete instantiations). -/
def trueMatcher : String → Bool := fun _ => true

/-- Fresh collector state (no counters, empty cache). -/
def demoCollectorState : CollectorState :=
  { previous_counters := [], port_cache := [], port_cache_time := 0 }

/-- Concrete discovered ports for witnesses. -/
def demoPort1 : PortEntry :=
  { ne_id := "35", port_id := "12", port_key := "35|12", port_name := some "P1" }

def demoPort2 : PortEntry :=
  { ne_id := "35", port_id := "13", port_key := "35|13", port_name := some "P2" }

def demoPorts : List (String × PortEntry) :=
  [("35|12", demoPort1), ("35|13", demoPort2)]

/-- A concrete point-table record correlating PMP 1 with port `35|13`. -/
def demoPmp : PmpRecord :=
  { request_id := 5, pmp_number := 1,
    fields := [("ne_id", "35"), ("port_id", "13"), ("pmp_name", "PMP-1")] }

/-- A concrete value record for PMP 1. -/
def demoVal : ValueRecord :=
  { request_id := 5, pmp_number := 1, value_number := 1,
    fields := [("param_name", "Bytes In"), ("param_value", "100")] }

/-- A concrete oracle: the first batch fails at execute, later batches
deliver results. -/
def demoOracle : ℕ → BatchOutcome :=
  fun n => if n = 1 then .execFail else .results [demoPmp] [demoVal]

/-- A concrete one-row port-table walk (field 2 is the port name). -/
def demoWalk : List (List ℕ × SnmpValue) := [([2, 35, 12], .str "P1")]

/-- The collector state after discovering `demoWalk` at time 0. -/
def demoState1 : CollectorState :=
  { previous_counters := [], port_cache := [("35|12", demoPort1)],
    port_cache_time := 0 }

/-- Does a point-table row carry the given request id as its leading index
component (after the column id)?  Rows with fewer than 3 parts never match. -/
def pmpRowMatches (request_id : ℕ) (row : List ℕ × String) : Bool :=
  match row.1 with
  | _ :: req_id :: _ :: _ => req_id == request_id
  | _ => false

/-- Same for value-table rows (at least 4 parts). -/
def valueRowMatches (request_id : ℕ) (row : List ℕ × String) : Bool :=
  match row.1 with
  | _ :: req_id :: _ :: _ :: _ => req_id == request_id
  | _ => false

end PySnmp

namespace PySnmp

theorem calculate_counter_rate_eq_spec (c p : ℤ) (dt : ℚ) :
    calculate_counter_rate c p dt = specCounterRate c p dt := by
  unfold calculate_counter_rate specCounterRate
  have h : (2 ^ 32 : ℤ) / 2 = 2 ^ 31 := by decide
  simp only [h]

/-- C1: rate computation.  For every previous-counter table, port key and
current sample, the computed rates agree with the specified formula: with a
previous sample and positive time delta each byte/packet rate is
`(current - previous) / dt` when `current ≥ previous`, the wraparound
reconstruction `(current + 2^32 - previous) / dt` when `current < previous`
and the reconstructed delta is below `2^31`, and `0` otherwise (reset case);
with no previous sample or `dt ≤ 0` all six rates are `0`; bit rates are the
corresponding byte rates times 8. -/
theorem rates_match_claim (previous_counters : List (String × TrafficCounter))
    (port_key : String) (cur : TrafficCounter) :
    calculate_rates previous_counters port_key cur =
      specRates previous_counters port_key cur := by
  unfold calculate_rates specRates
  cases previous_counters.lookup port_key with
  | none => rfl
  | some prev =>
    by_cases h : cur.timestamp - prev.timestamp ≤ 0 <;>
      simp [h, calculate_counter_rate_eq_spec]

/-- C4 counterexample: the claim says a rate field is stored as
`min(max(value, 0), 1e12)`.  At the concrete input `2e12` on field
`bytes_in_rate` the code stores `0.0`, while the claimed clamp formula gives
`1e12`, and `0 < 1e12`, so the two differ. -/
theorem rate_overflow_zeroed_not_clamped :
    convertField "bytes_in_rate" (FieldValue.f (2 * 10 ^ 12)) =
        some (StoredValue.f 0) ∧
    min (max ((2 : ℚ) * 10 ^ 12) 0) (10 ^ 12) = 10 ^ 12 ∧
    (0 : ℚ) < 10 ^ 12 := by
  refine ⟨?_, by norm_num, by norm_num⟩
  have he : strEndsWith "bytes_in_rate" "_rate" = true := by decide
  simp [convertField, rateAdjust, he]

theorem convertField_eq_spec (k : String) (v : FieldValue) :
    convertField k v = specConvertField k v := by
  cases v <;> simp [convertField, specConvertField, rateAdjust]

/-- C4 (amended): for every record flushed, the stored fields are exactly the
per-field conversion: `None` fields dropped; booleans unchanged; numeric
fields whose key ends in `_rate` raised to at least 0 and then replaced by 0
when they exceed `1e12` (stored as floats); other numerics unchanged; all
other values stringified. -/
theorem convert_fields_spec (record : MetricRecord) :
    (convert_to_point record).fields =
      record.fields.filterMap (fun kv =>
        (specConvertField kv.1 kv.2).map (fun sv => (kv.1, sv))) := by
  simp [convert_to_point, convertField_eq_spec]

/-- C8: writer buffering threshold.  Any enqueue that leaves the combined
buffer below the batch size performs no flush and keeps the whole buffer;
a non-empty enqueue that brings the buffer to at least the batch size
submits exactly one flush of the entire buffer and empties it; a background
tick on an empty buffer performs no flush. -/
theorem writer_buffer_threshold (batch_size : ℕ)
    (records buffer : List MetricRecord) :
    ((buffer ++ records).length < batch_size →
      add_records batch_size records buffer = (buffer ++ records, [])) ∧
    (records ≠ [] → batch_size ≤ (buffer ++ records).length →
      add_records batch_size records buffer = ([], [buffer ++ records])) ∧
    background_writer_tick [] = (([] : List MetricRecord), []) := by
  refine ⟨?_, ?_, rfl⟩
  · intro hlt
    rw [List.length_append] at hlt
    by_cases hr : records.isEmpty = true
    · have : records = [] := by
        cases records with
        | nil => rfl
        | cons a l => exact absurd hr (by simp)
      simp [add_records, this]
    · simp [add_records, hr]
      omega
  · intro hne hge
    rw [List.length_append] at hge
    have hr : records.isEmpty = false := by
      cases records with
      | nil => exact absurd rfl hne
      | cons a l => rfl
    simp [add_records, hr]
    omega

theorem lookup_cons_ne {α : Type} (p : ℕ × α) (rest : List (ℕ × α)) (k : ℕ)
    (h : p.1 ≠ k) : (p :: rest).lookup k = rest.lookup k := by
  have hb : (k == p.1) = false := beq_eq_false_iff_ne.mpr (fun hc => h hc.symm)
  simp [List.lookup, hb]

theorem lookup_cons_self {α : Type} (v : α) (rest : List (ℕ × α)) (k : ℕ) :
    ((k, v) :: rest).lookup k = some v := by
  simp [List.lookup]

theorem lookup_filter_beq_ne {α : Type} (l : List (ℕ × α)) (k : ℕ) :
    (l.filter (fun p => p.1 != k)).lookup k = none := by
  induction l with
  | nil => rfl
  | cons p rest ih =>
    by_cases h : p.1 = k
    · simp only [List.filter_cons]
      rw [if_neg (by simp [h])]
      exact ih
    · simp only [List.filter_cons]
      rw [if_pos (by simp [h]), lookup_cons_ne p _ k h]
      exact ih

theorem lookup_filter_other {α : Type} (l : List (ℕ × α)) (k k2 : ℕ)
    (hne : k ≠ k2) :
    (l.filter (fun p => p.1 != k2)).lookup k = l.lookup k := by
  induction l with
  | nil => rfl
  | cons p rest ih =>
    by_cases h : p.1 = k2
    · have hpk : p.1 ≠ k := by rw [h]; exact fun hc => hne hc.symm
      simp only [List.filter_cons]
      rw [if_neg (by simp [h]), lookup_cons_ne p rest k hpk]
      exact ih
    · simp only [List.filter_cons]
      rw [if_pos (by simp [h])]
      by_cases hk : p.1 = k
      · rcases p with ⟨pk, pv⟩
        subst hk
        rw [lookup_cons_self, lookup_cons_self]
      · rw [lookup_cons_ne p _ k hk, lookup_cons_ne p rest k hk]
        exact ih

theorem dictSet_lookup_self {α : Type} (m : List (ℕ × α)) (k : ℕ) (v : α) :
    (dictSet m k v).lookup k = some v := by
  unfold dictSet
  by_cases h : m.any (fun p => p.1 == k) = true
  · rw [if_pos h]
    induction m with
    | nil => simp at h
    | cons p rest ih =>
      by_cases hp : p.1 = k
      · have : (bif p.1 == k then (k, v) else p) = (k, v) := by simp [hp]
        rw [List.map_cons, this, lookup_cons_self]
      · have hrest : rest.any (fun p => p.1 == k) = true := by
          rcases List.any_eq_true.mp h with ⟨q, hq, hqk⟩
          rcases List.mem_cons.mp hq with rfl | hq2
          · exact absurd (by simpa using hqk) hp
          · exact List.any_eq_true.mpr ⟨q, hq2, hqk⟩
        have hkeep : (bif p.1 == k then (k, v) else p) = p := by
          have : (p.1 == k) = false := beq_eq_false_iff_ne.mpr hp
          simp [this]
        rw [List.map_cons, hkeep, lookup_cons_ne p _ k hp]
        exact ih hrest
  · rw [if_neg h]
    induction m with
    | nil => exact lookup_cons_self v [] k
    | cons p rest ih =>
      have hp : p.1 ≠ k := by
        intro hc
        exact h (List.any_eq_true.mpr ⟨p, List.mem_cons_self p rest, by simp [hc]⟩)
      have hr : ¬ rest.any (fun p => p.1 == k) = true := by
        intro hc
        rcases List.any_eq_true.mp hc with ⟨q, hq, hqk⟩
        exact h (List.any_eq_true.mpr ⟨q, List.mem_cons_of_mem p hq, hqk⟩)
      rw [List.cons_append, lookup_cons_ne p _ k hp]
      exact ih hr

theorem lookup_eq_of_mem {α : Type} (l : List (ℕ × α)) (k : ℕ) (x : α)
    (hnd : (l.map Prod.fst).Nodup) (hm : (k, x) ∈ l) :
    l.lookup k = some x := by
  induction l with
  | nil => simp at hm
  | cons p rest ih =>
    rw [List.map_cons, List.nodup_cons] at hnd
    rcases List.mem_cons.mp hm with heq | hmem
    · subst heq
      exact lookup_cons_self x rest k
    · have hp : p.1 ≠ k := by
        intro hc
        exact hnd.1 (hc ▸ List.mem_map.mpr ⟨(k, x), hmem, rfl⟩)
      rw [lookup_cons_ne p rest k hp]
      exact ih hnd.2 hmem

theorem cleanup_scan_cons_fst (now ma mfa : ℚ) (p : ℕ × PMRequestEntry)
    (rest : List (ℕ × PMRequestEntry)) :
    (cleanup_scan now ma mfa (p :: rest)).1 =
      (if should_cleanup now ma mfa p.2 then [p.1] else []) ++
        (cleanup_scan now ma mfa rest).1 := by
  conv_lhs => rw [cleanup_scan]
  unfold should_cleanup
  split_ifs <;> simp_all

theorem cleanup_scan_to_delete (now ma mfa : ℚ)
    (l : List (ℕ × PMRequestEntry)) :
    (cleanup_scan now ma mfa l).1 =
      (l.filter (fun p => should_cleanup now ma mfa p.2)).map Prod.fst := by
  induction l with
  | nil => rfl
  | cons p rest ih =>
    rw [cleanup_scan_cons_fst, List.filter_cons]
    by_cases hb : should_cleanup now ma mfa p.2 = true
    · simp [hb, ih]
    · simp [hb, ih]

theorem should_cleanup_state (now ma mfa : ℚ) (e : PMRequestEntry)
    (h : should_cleanup now ma mfa e = true) :
    e.state ∈ [PMRequestState.FINISHED, PMRequestState.FAILED,
      PMRequestState.CANCELLED, PMRequestState.PENDING, PMRequestState.STARTED] := by
  unfold should_cleanup at h
  split_ifs at h with h1 h2 h3
  · simp [h1.1]
  · rcases h2.1 with h | h <;> simp [h]
  · rcases h3.1 with h | h <;> simp [h]

theorem cleanup_delete_preserves (oracle : ℕ → SnmpOutcome) (rid : ℕ)
    (td : List ℕ) (hnot : rid ∉ td) :
    ∀ m : List (ℕ × PMRequestEntry),
      (cleanup_delete oracle td m).1.lookup rid = m.lookup rid := by
  induction td with
  | nil => intro m; rfl
  | cons r rest ih =>
    intro m
    have hr : rid ≠ r := fun hc => hnot (by simp [hc])
    have hrest : rid ∉ rest := fun hc => hnot (by simp [hc])
    unfold cleanup_delete
    cases hor : oracle r with
    | err =>
      simp only [delete_pm_request, hor]
      simpa using ih hrest m
    | ok =>
      simp only [delete_pm_request, hor]
      simp only [if_true, ite_true]
      simpa using (ih hrest (m.filter (fun p => p.1 != r))).trans
        (lookup_filter_other m rid r hr)

theorem updatePmpResults_all (rid pmp fid : ℕ) (v : String)
    (l : List PmpRecord)
    (h : l.all (fun r => r.request_id == rid) = true) :
    (updatePmpResults rid pmp fid v l).all (fun r => r.request_id == rid) = true := by
  induction l with
  | nil => simp [updatePmpResults, setPmpField]
  | cons r rest ih =>
    rw [List.all_cons, Bool.and_eq_true] at h
    unfold updatePmpResults
    by_cases hp : r.pmp_number = pmp
    · rw [if_pos hp, List.all_cons, Bool.and_eq_true]
      exact ⟨h.1, h.2⟩
    · rw [if_neg hp, List.all_cons, Bool.and_eq_true]
      exact ⟨h.1, ih h.2⟩

theorem process_pmp_row_all (rid : ℕ) (results : List PmpRecord)
    (row : List ℕ × String)
    (h : results.all (fun r => r.request_id == rid) = true) :
    (process_pmp_row rid results row).all (fun r => r.request_id == rid) = true := by
  rcases row with ⟨parts, v⟩
  cases parts with
  | nil => exact h
  | cons a t1 =>
    cases t1 with
    | nil => exact h
    | cons b t2 =>
      cases t2 with
      | nil => exact h
      | cons c t3 =>
        by_cases hb : b = rid
        · subst hb
          simpa [process_pmp_row] using updatePmpResults_all b c a v results h
        · simpa [process_pmp_row, hb] using h

theorem foldl_pmp_all (rid : ℕ) (page : List (List ℕ × String)) :
    ∀ results : List PmpRecord,
      results.all (fun r => r.request_id == rid) = true →
      (page.foldl (process_pmp_row rid) results).all
        (fun r => r.request_id == rid) = true := by
  induction page with
  | nil => intro results h; exact h
  | cons row rest ih =>
    intro results h
    exact ih (process_pmp_row rid results row) (process_pmp_row_all rid results row h)

theorem go_pmp_all (rid mr : ℕ) (pages : List (List (List ℕ × String))) :
    ∀ results : List PmpRecord,
      results.all (fun r => r.request_id == rid) = true →
      (get_pmp_results_go rid mr pages results).all
        (fun r => r.request_id == rid) = true := by
  induction pages with
  | nil => intro results h; exact h
  | cons page rest ih =>
    intro results h
    unfold get_pmp_results_go
    by_cases hc : (page.foldl (process_pmp_row rid) results).length > mr
    · rw [if_pos hc]
      exact foldl_pmp_all rid page results h
    · rw [if_neg hc]
      exact ih _ (foldl_pmp_all rid page results h)

theorem process_pmp_row_noop (rid : ℕ) (results : List PmpRecord)
    (row : List ℕ × String) (h : pmpRowMatches rid row = false) :
    process_pmp_row rid results row = results := by
  rcases row with ⟨parts, v⟩
  cases parts with
  | nil => rfl
  | cons a t1 =>
    cases t1 with
    | nil => rfl
    | cons b t2 =>
      cases t2 with
      | nil => rfl
      | cons c t3 =>
        have hb : ¬ b = rid := by simpa [pmpRowMatches] using h
        simp [process_pmp_row, hb]

theorem foldl_pmp_filter (rid : ℕ) (page : List (List ℕ × String)) :
    ∀ results : List PmpRecord,
      (page.filter (pmpRowMatches rid)).foldl (process_pmp_row rid) results =
        page.foldl (process_pmp_row rid) results := by
  induction page with
  | nil => intro results; rfl
  | cons row rest ih =>
    intro results
    by_cases hm : pmpRowMatches rid row = true
    · rw [List.filter_cons_of_pos hm, List.foldl_cons, List.foldl_cons, ih]
    · rw [List.filter_cons_of_neg (by simpa using hm), List.foldl_cons,
        process_pmp_row_noop rid results row (by simpa using hm), ih]

theorem go_pmp_filter (rid mr : ℕ) (pages : List (List (List ℕ × String))) :
    ∀ results : List PmpRecord,
      get_pmp_results_go rid mr (pages.map (fun pg => pg.filter (pmpRowMatches rid))) results =
        get_pmp_results_go rid mr pages results := by
  induction pages with
  | nil => intro results; rfl
  | cons page rest ih =>
    intro results
    unfold get_pmp_results_go
    rw [List.map_cons]
    simp only [foldl_pmp_filter rid page results]
    by_cases hc : (page.foldl (process_pmp_row rid) results).length > mr
    · rw [if_pos hc, if_pos hc]
    · rw [if_neg hc, if_neg hc, ih]

theorem updateValueResults_all (rid pmp vn fid : ℕ) (v : String)
    (l : List ValueRecord)
    (h : l.all (fun r => r.request_id == rid) = true) :
    (updateValueResults rid pmp vn fid v l).all
      (fun r => r.request_id == rid) = true := by
  induction l with
  | nil => simp [updateValueResults, setValueField]
  | cons r rest ih =>
    rw [List.all_cons, Bool.and_eq_true] at h
    unfold updateValueResults
    by_cases hp : r.pmp_number = pmp ∧ r.value_number = vn
    · rw [if_pos hp, List.all_cons, Bool.and_eq_true]
      exact ⟨h.1, h.2⟩
    · rw [if_neg hp, List.all_cons, Bool.and_eq_true]
      exact ⟨h.1, ih h.2⟩

theorem process_value_row_all (rid : ℕ) (results : List ValueRecord)
    (row : List ℕ × String)
    (h : results.all (fun r => r.request_id == rid) = true) :
    (process_value_row rid results row).all
      (fun r => r.request_id == rid) = true := by
  rcases row with ⟨parts, v⟩
  cases parts with
  | nil => exact h
  | cons a t1 =>
    cases t1 with
    | nil => exact h
    | cons b t2 =>
      cases t2 with
      | nil => exact h
      | cons c t3 =>
        cases t3 with
        | nil => exact h
        | cons d t4 =>
          by_cases hb : b = rid
          · subst hb
            simpa [process_value_row] using
              updateValueResults_all b c d a v results h
          · simpa [process_value_row, hb] using h

theorem foldl_value_all (rid : ℕ) (page : List (List ℕ × String)) :
    ∀ results : List ValueRecord,
      results.all (fun r => r.request_id == rid) = true →
      (page.foldl (process_value_row rid) results).all
        (fun r => r.request_id == rid) = true := by
  induction page with
  | nil => intro results h; exact h
  | cons row rest ih =>
    intro results h
    exact ih (process_value_row rid results row)
      (process_value_row_all rid results row h)

theorem go_value_all (rid mr : ℕ) (pages : List (List (List ℕ × String))) :
    ∀ results : List ValueRecord,
      results.all (fun r => r.request_id == rid) = true →
      (get_value_results_go rid mr pages results).all
        (fun r => r.request_id == rid) = true := by
  induction pages with
  | nil => intro results h; exact h
  | cons page rest ih =>
    intro results h
    unfold get_value_results_go
    by_cases hc : (page.foldl (process_value_row rid) results).length > mr
    · rw [if_pos hc]
      exact foldl_value_all rid page results h
    · rw [if_neg hc]
      exact ih _ (foldl_value_all rid page results h)

theorem process_value_row_noop (rid : ℕ) (results : List ValueRecord)
    (row : List ℕ × String) (h : valueRowMatches rid row = false) :
    process_value_row rid results row = results := by
  rcases row with ⟨parts, v⟩
  cases parts with
  | nil => rfl
  | cons a t1 =>
    cases t1 with
    | nil => rfl
    | cons b t2 =>
      cases t2 with
      | nil => rfl
      | cons c t3 =>
        cases t3 with
        | nil => rfl
        | cons d t4 =>
          have hb : ¬ b = rid := by simpa [valueRowMatches] using h
          simp [process_value_row, hb]

theorem foldl_value_filter (rid : ℕ) (page : List (List ℕ × String)) :
    ∀ results : List ValueRecord,
      (page.filter (valueRowMatches rid)).foldl (process_value_row rid) results =
        page.foldl (process_value_row rid) results := by
  induction page with
  | nil => intro results; rfl
  | cons row rest ih =>
    intro results
    by_cases hm : valueRowMatches rid row = true
    · rw [List.filter_cons_of_pos hm, List.foldl_cons, List.foldl_cons, ih]
    · rw [List.filter_cons_of_neg (by simpa using hm), List.foldl_cons,
        process_value_row_noop rid results row (by simpa using hm), ih]

theorem go_value_filter (rid mr : ℕ) (pages : List (List (List ℕ × String))) :
    ∀ results : List ValueRecord,
      get_value_results_go rid mr
          (pages.map (fun pg => pg.filter (valueRowMatches rid))) results =
        get_value_results_go rid mr pages results := by
  induction pages with
  | nil => intro results; rfl
  | cons page rest ih =>
    intro results
    unfold get_value_results_go
    rw [List.map_cons]
    simp only [foldl_value_filter rid page results]
    by_cases hc : (page.foldl (process_value_row rid) results).length > mr
    · rw [if_pos hc, if_pos hc]
    · rw [if_neg hc, if_neg hc, ih]

/-- C2: result filtering invariant.  Every PMP record and every value record
assembled for `request_id` carries exactly that request id as its parsed
leading index component, and rows whose request id differs (or whose index
is too short to parse) contribute nothing: deleting them from every walk
page leaves the returned records unchanged, however the rows are
interleaved. -/
theorem get_results_filter_invariant (request_id max_rows_p max_rows_v : ℕ)
    (pmp_pages value_pages : List (List (List ℕ × String))) :
    (get_pmp_results request_id pmp_pages max_rows_p).all
        (fun r => r.request_id == request_id) = true ∧
    get_pmp_results request_id
        (pmp_pages.map (fun pg => pg.filter (pmpRowMatches request_id)))
        max_rows_p =
      get_pmp_results request_id pmp_pages max_rows_p ∧
    (get_value_results request_id value_pages max_rows_v).all
        (fun r => r.request_id == request_id) = true ∧
    get_value_results request_id
        (value_pages.map (fun pg => pg.filter (valueRowMatches request_id)))
        max_rows_v =
      get_value_results request_id value_pages max_rows_v :=
  ⟨go_pmp_all request_id max_rows_p pmp_pages [] rfl,
   go_pmp_filter request_id max_rows_p pmp_pages [],
   go_value_all request_id max_rows_v value_pages [] rfl,
   go_value_filter request_id max_rows_v value_pages []⟩

/-- C9: cleanup never deletes a locally tracked request whose last observed
state is CREATED — such an entry survives `cleanup_old_requests` for every
age — and, more generally, an entry survives unless its state is one of
FINISHED, FAILED, CANCELLED, PENDING, STARTED (the only states the cleanup
conditions select). -/
theorem cleanup_never_deletes_created (oracle : ℕ → SnmpOutcome)
    (now ma mfa : ℚ) (active : List (ℕ × PMRequestEntry)) (rid : ℕ)
    (e : PMRequestEntry)
    (hnd : (active.map Prod.fst).Nodup)
    (he : active.lookup rid = some e) :
    (e.state = PMRequestState.CREATED →
      (cleanup_old_requests oracle now ma mfa active).1.lookup rid = some e) ∧
    (e.state ∉ [PMRequestState.FINISHED, PMRequestState.FAILED,
        PMRequestState.CANCELLED, PMRequestState.PENDING, PMRequestState.STARTED] →
      (cleanup_old_requests oracle now ma mfa active).1.lookup rid = some e) := by
  have core : ∀ _ : should_cleanup now ma mfa e = false,
      (cleanup_old_requests oracle now ma mfa active).1.lookup rid = some e := by
    intro hsc
    have hnotin : rid ∉ (cleanup_scan now ma mfa active).1 := by
      rw [cleanup_scan_to_delete]
      intro hin
      rcases List.mem_map.mp hin with ⟨p, hpfilter, hpfst⟩
      have hpmem : p ∈ active := (List.mem_filter.mp hpfilter).1
      have hpsc : should_cleanup now ma mfa p.2 = true :=
        (List.mem_filter.mp hpfilter).2
      have hlk : active.lookup rid = some p.2 := by
        have : (rid, p.2) ∈ active := by
          rcases p with ⟨pk, pv⟩
          simp only at hpfst
          simpa [hpfst] using hpmem
        exact lookup_eq_of_mem active rid p.2 hnd this
      rw [he] at hlk
      rw [Option.some_inj.mp hlk] at hsc
      rw [hpsc] at hsc
      exact Bool.noConfusion hsc
    unfold cleanup_old_requests
    simpa using (cleanup_delete_preserves oracle rid _ hnotin active).trans he
  constructor
  · intro hs
    apply core
    unfold should_cleanup
    split_ifs with h1 h2 h3
    · rw [hs] at h1; exact absurd h1.1 (by simp)
    · rcases h2.1 with h | h <;> (rw [hs] at h; simp at h)
    · rcases h3.1 with h | h <;> (rw [hs] at h; simp at h)
    · rfl
  · intro hs
    apply core
    cases hb : should_cleanup now ma mfa e with
    | false => rfl
    | true => exact absurd (should_cleanup_state now ma mfa e hb) hs

/-- C9 witness: a CREATED entry of any age survives a concrete cleanup run. -/
theorem cleanup_never_deletes_created_witness :
    (cleanup_old_requests (fun _ => SnmpOutcome.ok) 100000 3600 1800
        [(7, demoEntry)]).1.lookup 7 = some demoEntry :=
  (cleanup_never_deletes_created (fun _ => SnmpOutcome.ok) 100000 3600 1800
      [(7, demoEntry)] 7 demoEntry (by simp) rfl).1 rfl

/-- C3 counterexample: with a failing destroy SET, `delete_pm_request`
returns `false` and the locally tracked entry for requestId 7 is still
present afterwards — contradicting the claim that the entry is removed
regardless of the SET outcome. -/
theorem delete_failure_keeps_local_entry :
    (delete_pm_request SnmpOutcome.err [(7, demoEntry)] 7).1 = false ∧
    (delete_pm_request SnmpOutcome.err [(7, demoEntry)] 7).2.lookup 7 =
      some demoEntry :=
  ⟨rfl, rfl⟩

/-- C3 (amended): `delete_pm_request` removes the local tracking entry
exactly when the destroy SET succeeds: on success it returns `true` and the
requestId is absent afterwards; on a failed SET it returns `false` and the
tracked map is unchanged. -/
theorem delete_local_tracking (active : List (ℕ × PMRequestEntry)) (rid : ℕ) :
    (delete_pm_request SnmpOutcome.ok active rid).1 = true ∧
    (delete_pm_request SnmpOutcome.ok active rid).2.lookup rid = none ∧
    (delete_pm_request SnmpOutcome.err active rid).1 = false ∧
    (delete_pm_request SnmpOutcome.err active rid).2 = active :=
  ⟨rfl, lookup_filter_beq_ne active rid, rfl, rfl⟩

/-- C5: create atomicity.  A failed next-request-id GET or a failed
create-and-activate SET yields no id and leaves the tracked map exactly as
it was; a successful SET yields the id and records a CREATED entry with the
request parameters. -/
theorem create_atomicity (set_result : SnmpOutcome)
    (request_name filter_value : String) (rt : PMRequestType) (ft : FilterType)
    (now : ℚ) (active : List (ℕ × PMRequestEntry)) (rid : ℕ) :
    create_pm_request none set_result request_name filter_value rt ft now active
        = (none, active) ∧
    create_pm_request (some rid) SnmpOutcome.err request_name filter_value rt ft
        now active = (none, active) ∧
    (create_pm_request (some rid) SnmpOutcome.ok request_name filter_value rt ft
        now active).1 = some rid ∧
    (create_pm_request (some rid) SnmpOutcome.ok request_name filter_value rt ft
        now active).2.lookup rid =
      some { name := request_name, filter_value := filter_value,
             request_type := rt, filter_type := ft, created_time := now,
             state := .CREATED, last_error := none } :=
  ⟨rfl, rfl, rfl, dictSet_lookup_self active rid _⟩

/-- C8 witness: with batch size 2, enqueueing one record onto an empty buffer
flushes nothing; enqueueing one more flushes exactly the two-record buffer
and clears it; the empty-buffer tick flushes nothing. -/
theorem writer_buffer_threshold_witness :
    add_records 2 [demoRecord] [] = ([demoRecord], []) ∧
    add_records 2 [demoRecord] [demoRecord] = ([], [[demoRecord, demoRecord]]) ∧
    background_writer_tick [] = (([] : List MetricRecord), []) :=
  ⟨(writer_buffer_threshold 2 [demoRecord] []).1 (by simp),
   (writer_buffer_threshold 2 [demoRecord] [demoRecord]).2.1 (by simp) (by simp),
   (writer_buffer_threshold 2 [] []).2.2⟩

theorem chunkList_nil {α : Type} (bs : ℕ) : chunkList bs ([] : List α) = [] := by
  unfold chunkList
  split_ifs <;> rfl

theorem run_batches_spec (oracle : ℕ → BatchOutcome) (now : ℚ)
    (batches : List (List (String × PortEntry))) :
    ∀ (n : ℕ) (prev : List (String × TrafficCounter)),
      (run_batches oracle now batches n prev).1 =
        successive_batch_records oracle now batches n prev ∧
      (run_batches oracle now batches n prev).2.1 =
        count_failed oracle batches n := by
  induction batches with
  | nil => intro n prev; exact ⟨rfl, rfl⟩
  | cons batch rest ih =>
    intro n prev
    unfold run_batches successive_batch_records count_failed
    cases hor : oracle n with
    | createFail =>
      dsimp only
      refine ⟨(ih (n + 1) prev).1, ?_⟩
      rw [(ih (n + 1) prev).2]
      simp [batchFailed]
      omega
    | execFail =>
      dsimp only
      refine ⟨(ih (n + 1) prev).1, ?_⟩
      rw [(ih (n + 1) prev).2]
      simp [batchFailed]
      omega
    | fetchFail =>
      dsimp only
      refine ⟨(ih (n + 1) prev).1, ?_⟩
      rw [(ih (n + 1) prev).2]
      simp [batchFailed]
      omega
    | results pmps vals =>
      dsimp only
      by_cases hz : pmps = [] ∧ vals = []
      · rw [if_pos hz, if_pos hz]
        refine ⟨(ih (n + 1) prev).1, ?_⟩
        rw [(ih (n + 1) prev).2]
        simp [batchFailed]
      · rw [if_neg hz, if_neg hz]
        refine ⟨?_, ?_⟩
        · dsimp only
          rw [(ih (n + 1) (process_pm_results pmps vals batch prev now).2).1]
        · dsimp only
          rw [(ih (n + 1) (process_pm_results pmps vals batch prev now).2).2]
          simp [batchFailed]

/-- C6: batch isolation.  With collection enabled, a positive batch size and
a given port set, the records returned by `collect_port_traffic` are exactly
the concatenation of the records produced by the successfully processed
batches of the `batch_size`-chunked port list — failing batches (create,
execute or fetch/process) are skipped without aborting the remaining
batches — and the failed-batch counter equals the number of failing
batches. -/
theorem collect_batch_isolation (batch_size : ℕ) (oracle : ℕ → BatchOutcome)
    (walk_rows : List (List ℕ × SnmpValue)) (nf : Option String) (rv : Bool)
    (mf : String → Bool) (now : ℚ) (ports : List (String × PortEntry))
    (σ : CollectorState) (_hbs : 0 < batch_size) :
    (collect_port_traffic true batch_size oracle walk_rows nf rv mf now
        (some ports) σ).1 =
      successive_batch_records oracle now (chunkList batch_size ports) 1
        σ.previous_counters ∧
    (run_batches oracle now (chunkList batch_size ports) 1
        σ.previous_counters).2.1 =
      count_failed oracle (chunkList batch_size ports) 1 := by
  constructor
  · by_cases hp : ports = []
    · subst hp
      simp [collect_port_traffic, chunkList_nil, successive_batch_records]
    · simp only [collect_port_traffic, Bool.not_true, if_neg]
      simp [hp]
      exact (run_batches_spec oracle now (chunkList batch_size ports) 1
        σ.previous_counters).1
  · exact (run_batches_spec oracle now (chunkList batch_size ports) 1
      σ.previous_counters).2

/-- C6 witness: two ports chunked into two single-port batches; the first
batch fails at execute, the second delivers results — the returned records
are the successful concatenation and exactly one batch is counted failed. -/
theorem collect_batch_isolation_witness :
    (collect_port_traffic true 1 demoOracle [] none true trueMatcher 50
        (some demoPorts) demoCollectorState).1 =
      successive_batch_records demoOracle 50 (chunkList 1 demoPorts) 1
        demoCollectorState.previous_counters ∧
    (run_batches demoOracle 50 (chunkList 1 demoPorts) 1
        demoCollectorState.previous_counters).2.1 =
      count_failed demoOracle (chunkList 1 demoPorts) 1 :=
  collect_batch_isolation 1 demoOracle [] none true trueMatcher 50 demoPorts
    demoCollectorState (by decide)

/-- C10: with the PM-collection enabled flag false, `collect_port_traffic`
returns the empty record list for every argument, leaves the collector state
(previous-counter cache and port cache) unchanged, and performs no remote
interaction at all (no walk, create, execute or delete events). -/
theorem collect_disabled_noop (batch_size : ℕ) (oracle : ℕ → BatchOutcome)
    (walk_rows : List (List ℕ × SnmpValue)) (nf : Option String) (rv : Bool)
    (mf : String → Bool) (now : ℚ)
    (ports_arg : Option (List (String × PortEntry))) (σ : CollectorState) :
    collect_port_traffic false batch_size oracle walk_rows nf rv mf now
        ports_arg σ = ([], σ, []) :=
  rfl

/-- C7 counterexample: with transport data holding no port rows, two
discovery calls one second apart (well inside the 300 s TTL) both walk the
table (third component `true`): the second call is not served from the
cache, because an empty result is never cached, contradicting the claim for
this input. -/
theorem discover_rewalks_on_empty_result :
    discover_ports [] 400 none true trueMatcher demoCollectorState =
      ([], demoCollectorState, true) ∧
    discover_ports [] 401 none true trueMatcher demoCollectorState =
      ([], demoCollectorState, true) ∧
    ((401 : ℚ) - 400 < port_cache_ttl) := by
  refine ⟨?_, ?_, by norm_num [port_cache_ttl]⟩ <;>
    simp [discover_ports, demoCollectorState]

/-- C7 (amended): when the first discovery call leaves a non-empty port
cache and the second call happens within the TTL of the cache timestamp,
the second call is answered from the cache without walking (for arbitrary
transport data), applying the name filter to the cached map; with the same
filter, its result is identical to the first call's. -/
theorem discover_cached_within_ttl (wd wd2 : List (List ℕ × SnmpValue))
    (t1 t2 : ℚ) (nf nf2 : Option String) (rv rv2 : Bool)
    (mf mf2 : String → Bool) (σ0 : CollectorState)
    (hts : t1 ≤ t2)
    (hcache : (discover_ports wd t1 nf rv mf σ0).2.1.port_cache ≠ [])
    (httl : t2 - (discover_ports wd t1 nf rv mf σ0).2.1.port_cache_time <
      port_cache_ttl) :
    discover_ports wd2 t2 nf2 rv2 mf2 (discover_ports wd t1 nf rv mf σ0).2.1 =
      (filter_ports (discover_ports wd t1 nf rv mf σ0).2.1.port_cache nf2 rv2 mf2,
       (discover_ports wd t1 nf rv mf σ0).2.1, false) ∧
    (discover_ports wd t1 nf rv mf σ0).1 =
      filter_ports (discover_ports wd t1 nf rv mf σ0).2.1.port_cache nf rv mf := by
  by_cases h1 : t1 - σ0.port_cache_time < port_cache_ttl ∧ σ0.port_cache ≠ []
  · have hd : discover_ports wd t1 nf rv mf σ0 =
        (filter_ports σ0.port_cache nf rv mf, σ0, false) := by
      unfold discover_ports
      rw [if_pos h1]
    rw [hd] at hcache httl ⊢
    refine ⟨?_, rfl⟩
    unfold discover_ports
    rw [if_pos ⟨httl, h1.2⟩]
  · by_cases h2 : wd = []
    · have hd : discover_ports wd t1 nf rv mf σ0 = ([], σ0, true) := by
        unfold discover_ports
        rw [if_neg h1, if_pos h2]
      rw [hd] at hcache httl
      exact absurd ⟨by linarith, hcache⟩ h1
    · cases hp : parse_port_rows wd [] with
      | error e =>
        have hd : discover_ports wd t1 nf rv mf σ0 =
            (filter_ports [] nf rv mf, σ0, true) := by
          unfold discover_ports
          rw [if_neg h1, if_neg h2, hp]
        rw [hd] at hcache httl
        exact absurd ⟨by linarith, hcache⟩ h1
      | ok pd =>
        have hd : discover_ports wd t1 nf rv mf σ0 =
            (filter_ports (pd.filter (fun p => p.2.port_name.isSome)) nf rv mf,
             { σ0 with port_cache := pd.filter (fun p => p.2.port_name.isSome),
                       port_cache_time := t1 }, true) := by
          unfold discover_ports
          rw [if_neg h1, if_neg h2, hp]
        rw [hd] at hcache httl ⊢
        refine ⟨?_, rfl⟩
        unfold discover_ports
        rw [if_pos ⟨by simpa using httl, by simpa using hcache⟩]

/-- C7 witness: a one-port walk at `t = 0` fills the cache; a second call at
`t = 10` (inside the TTL) with empty transport data is served from the cache
without walking and equals the first call's map. -/
theorem discover_cached_within_ttl_witness :
    discover_ports [] 10 none true trueMatcher
        (discover_ports demoWalk 0 none true trueMatcher demoCollectorState).2.1 =
      (filter_ports
        (discover_ports demoWalk 0 none true trueMatcher demoCollectorState).2.1.port_cache
        none true trueMatcher,
       (discover_ports demoWalk 0 none true trueMatcher demoCollectorState).2.1,
       false) ∧
    (discover_ports demoWalk 0 none true trueMatcher demoCollectorState).1 =
      filter_ports
        (discover_ports demoWalk 0 none true trueMatcher demoCollectorState).2.1.port_cache
        none true trueMatcher := by
  have hp : parse_port_rows demoWalk [] = .ok [("35|12", demoPort1)] := rfl
  have hd1 : discover_ports demoWalk 0 none true trueMatcher demoCollectorState =
      ([("35|12", demoPort1)], demoState1, true) := by
    unfold discover_ports
    rw [if_neg (by simp [demoCollectorState]), if_neg (by simp [demoWalk]), hp]
    rfl
  exact discover_cached_within_ttl demoWalk [] 0 10 none none true true
    trueMatcher trueMatcher demoCollectorState (by norm_num)
    (by rw [hd1]; simp [demoState1])
    (by rw [hd1]; norm_num [demoState1, port_cache_ttl])

end PySnmp
